import Mathlib

/-!
Verification of the `generate_task_plan` repository against its
natural-language specification.

The development is a shallow embedding of the two independent parts of the
repository:

* the `interview` Django app (interactor, storage adapter, DTOs), from
  `interview/interactors/create_interview_attempt_interactor.py`,
  `interview/storages/storage_implementation.py` and
  `interview/interactors/storage_interface/dtos.py`;
* the standalone scripts `scripts/index_code_base.py`,
  `scripts/search_code_base.py` and `scripts/generate_task_plan.py`.

External services (relational database, Azure embedding and chat HTTP
endpoints, Weaviate vector store) are modelled as oracles / explicit state,
and every effect the claims talk about (storage calls, API calls, written
files, printed output) is reified as data returned by the embedded
functions.  Datetimes are modelled as opaque values (`Nat` timestamps or
preformatted strings), since no claim depends on calendar arithmetic.
-/

namespace Interview

/-- DTO for interview details (`dtos.py`, `InterviewDTO`). -/
structure InterviewDTO where
  id : String
  title : String
  description : String
  duration : Int
deriving DecidableEq

/-- DTO for interview attempt details (`dtos.py`, `InterviewAttemptDTO`).
Datetimes are modelled as `Nat` timestamps; the two nullable fields are
`Option Nat`. -/
structure InterviewAttemptDTO where
  interview_id : String
  user_id : String
  start_datetime : Nat
  end_datetime : Option Nat
  scheduled_end_datetime : Option Nat
deriving DecidableEq

/-- The one exception type the interactor can raise
(`exceptions.InvalidInterviewIdException`). -/
inductive InterviewException where
  | invalidInterviewIdException
deriving DecidableEq

/-- The storage dependency injected into the interactor, modelled by its
observable behaviour on the only read operation the interactor uses:
`get_interview_details` maps a list of interview ids to a list of
`InterviewDTO`s. -/
structure InterviewStorageInterface where
  get_interview_details : List String → List InterviewDTO

/-- `CreateInterviewAttemptInteractor.validate_interview_details`:
look the id up via `get_interview_details([interview_id])`; if the result is
empty (Python falsy), raise `InvalidInterviewIdException`. -/
def validate_interview_details (storage : InterviewStorageInterface)
    (interview_id : String) : Except InterviewException Unit :=
  if (storage.get_interview_details [interview_id]).isEmpty then
    Except.error InterviewException.invalidInterviewIdException
  else
    Except.ok ()

/-- `CreateInterviewAttemptInteractor.create_interview_attempt`:
validate the interview id, then build an `InterviewAttemptDTO` with
`start_datetime = datetime.datetime.now()` (the `now` parameter),
`end_datetime = None`, `scheduled_end_datetime = None`, and pass it to the
storage's `create_interview_attempt`.  The method returns nothing; the
second component of the result is the list of DTOs passed to the storage's
`create_interview_attempt` during the call (the effect trace). -/
def create_interview_attempt (storage : InterviewStorageInterface) (now : Nat)
    (interview_id : String) (user_id : String) :
    Except InterviewException Unit × List InterviewAttemptDTO :=
  match validate_interview_details storage interview_id with
  | Except.error e => (Except.error e, [])
  | Except.ok _ =>
      (Except.ok (),
       [InterviewAttemptDTO.mk interview_id user_id now none none])

/-- The keyword arguments `StorageImplementation.create_interview_attempt`
passes to `InterviewAttempt.objects.create` — exactly these four fields and
no others. -/
structure InterviewAttemptInsert where
  interview_id : String
  user_id : String
  start_datetime : Nat
  end_datetime : Option Nat
deriving DecidableEq

/-- `StorageImplementation.create_interview_attempt`: forward
`interview_id`, `user_id`, `start_datetime` and `end_datetime` from the DTO
to the ORM insert.  The result models the row-insert request issued to the
database. -/
def storage_create_interview_attempt (dto : InterviewAttemptDTO) :
    InterviewAttemptInsert :=
  InterviewAttemptInsert.mk dto.interview_id dto.user_id dto.start_datetime
    dto.end_datetime

/-- Storage stub used by the witness of C1: every lookup returns no rows. -/
def c1_storage : InterviewStorageInterface :=
  InterviewStorageInterface.mk (fun _ => [])

/-- Storage stub used by the witness of C2: the lookup finds one row. -/
def c2_storage : InterviewStorageInterface :=
  InterviewStorageInterface.mk
    (fun _ => [InterviewDTO.mk "iid-1" "Backend interview" "desc" 3600])

end Interview

namespace Scripts

/-- Embedding vectors returned by the Azure embedding endpoint.  The scripts
never compute with the coordinates, so they are modelled as integers. -/
abbrev Embedding := List Int

/-- `startsWithList n h` holds when `n` is an initial segment of `h`
(character lists). -/
def startsWithList : List Char → List Char → Bool
  | [], _ => true
  | _ :: _, [] => false
  | a :: n, b :: h => a == b && startsWithList n h

/-- Contiguous-substring containment on character lists; `hasSubstrList n h`
models Python's `n in h` for strings. -/
def hasSubstrList (needle : List Char) : List Char → Bool
  | [] => startsWithList needle []
  | c :: rest => startsWithList needle (c :: rest) || hasSubstrList needle rest

/-- Python's `needle in hay` on strings. -/
def str_in (needle hay : String) : Bool :=
  hasSubstrList needle.data hay.data

/-- Python's `str.strip()`: remove leading and trailing whitespace. -/
def py_strip (s : String) : String :=
  String.mk
    (((s.data.dropWhile Char.isWhitespace).reverse.dropWhile
        Char.isWhitespace).reverse)

/-- A filesystem entry produced by `root_path.glob('**/*')` in
`index_code_base`, with the attributes the loop inspects: `is_file()`,
`Path.suffix`, `Path.parts`, the text content read from the file, and
`str(file_path.relative_to(root_path))`. -/
structure FileEntry where
  is_file : Bool
  suffix : String
  parts : List String
  content : String
  rel_path : String
deriving DecidableEq

/-- `excluded_dirs = {'scripts', 'venv', '.specstory'}` in
`index_code_base`. -/
def excluded_dirs : List String := ["scripts", "venv", ".specstory"]

/-- `should_process_the_file` from `index_code_base`:
`file_path.is_file() and '.py' in file_path.suffix and not any(
excluded_dir in file_path.parts for excluded_dir in excluded_dirs)`. -/
def should_process_the_file (f : FileEntry) : Bool :=
  f.is_file && str_in ".py" f.suffix &&
    !(excluded_dirs.any (fun d => decide (d ∈ f.parts)))

/-- The properties/vector record handed to `collection.data.insert`. -/
structure InsertRecord where
  file_path : String
  content : String
  vector : Embedding
deriving DecidableEq

/-- An external API call issued while indexing one file. -/
inductive ApiCall where
  | embedCall (text : String)
  | insertCall (r : InsertRecord)
deriving DecidableEq

/-- Result of the body of the per-file `try` block when no exception is
raised. -/
inductive BodyResult where
  | skipped
  | inserted (r : InsertRecord)
deriving DecidableEq

/-- What the indexing loop did with one file. -/
inductive StepOutcome where
  | notEligible
  | skippedEmpty
  | inserted (r : InsertRecord)
  | errorLogged (msg : String)
deriving DecidableEq

/-- External services used by `index_code_base`: the Azure embedding
endpoint (`embed text = none` models the HTTP call failing, in which case
`get_azure_embedding` catches the exception and returns `None`), and the
Weaviate insert (`insert_ok r = false` models `collection.data.insert`
raising). -/
structure IndexOracle where
  embed : String → Option Embedding
  insert_ok : InsertRecord → Bool

/-- The body of the per-file `try` block in `index_code_base`: skip if the
content is empty after stripping; call `get_azure_embedding`; raise
`Exception("Failed to get embedding")` when the returned value is falsy
(`None` or the empty list); otherwise insert `{file_path, content}` with
the vector.  The second component is the trace of external calls made. -/
def index_file_body (o : IndexOracle) (f : FileEntry) :
    Except String BodyResult × List ApiCall :=
  if py_strip f.content = "" then (Except.ok BodyResult.skipped, [])
  else
    match o.embed f.content with
    | none =>
        (Except.error "Failed to get embedding", [ApiCall.embedCall f.content])
    | some v =>
        if v = [] then
          (Except.error "Failed to get embedding",
           [ApiCall.embedCall f.content])
        else
          if o.insert_ok (InsertRecord.mk f.rel_path f.content v) then
            (Except.ok (BodyResult.inserted (InsertRecord.mk f.rel_path f.content v)),
             [ApiCall.embedCall f.content,
              ApiCall.insertCall (InsertRecord.mk f.rel_path f.content v)])
          else
            (Except.error "insert failed",
             [ApiCall.embedCall f.content,
              ApiCall.insertCall (InsertRecord.mk f.rel_path f.content v)])

/-- One iteration of the indexing loop: the eligibility test, then the
`try` block with its `except` clause, which catches any exception, prints
it, and lets the loop continue. -/
def process_file (o : IndexOracle) (f : FileEntry) :
    StepOutcome × List ApiCall :=
  if should_process_the_file f then
    match index_file_body o f with
    | (Except.ok BodyResult.skipped, calls) => (StepOutcome.skippedEmpty, calls)
    | (Except.ok (BodyResult.inserted r), calls) => (StepOutcome.inserted r, calls)
    | (Except.error msg, calls) => (StepOutcome.errorLogged msg, calls)
  else (StepOutcome.notEligible, [])

/-- `index_code_base`: iterate the loop body over the files the walk
yields, in order; each iteration's exception handling is internal to
`process_file`, so the result pairs every file with its own outcome. -/
def index_code_base (o : IndexOracle) (files : List FileEntry) :
    List (FileEntry × (StepOutcome × List ApiCall)) :=
  files.map (fun f => (f, process_file o f))

/-- A record stored in the `CodeFile` Weaviate collection, as rebuilt by
`search_code_base` from `obj.properties`. -/
structure StoredDoc where
  file_path : String
  content : String
deriving DecidableEq

/-- The state of the external vector store: stored records with their
externally supplied vectors. -/
structure VectorStore where
  docs : List (StoredDoc × Embedding)

/-- Squared euclidean distance on the overlapping coordinates; the ranking
key of the nearest-neighbor model. -/
def dist2 (a b : Embedding) : Int :=
  ((a.zip b).map (fun p => (p.1 - p.2) * (p.1 - p.2))).sum

/-- "`x` is at least as near to the query vector `v` as `y`": the ordering
used by the nearest-neighbor model. -/
def near_rank (v : Embedding) (x y : StoredDoc × Embedding) : Prop :=
  dist2 x.2 v ≤ dist2 y.2 v

instance (v : Embedding) : DecidableRel (near_rank v) :=
  fun a b => inferInstanceAs (Decidable (dist2 a.2 v ≤ dist2 b.2 v))

/-- Model of the external Weaviate `near_vector` query (spec section 6:
"nearest-neighbor query by vector with a result limit"): the stored
records ordered nearest-first, truncated to `lim`. -/
def near_vector (store : VectorStore) (v : Embedding) (lim : Nat) :
    List StoredDoc :=
  ((List.insertionSort (near_rank v) store.docs).map Prod.fst).take lim

/-- A chat message (`{role, content}`). -/
structure ChatMessage where
  role : String
  content : String
deriving DecidableEq

/-- The JSON body `get_chat_completion` posts to the chat endpoint. -/
structure ChatRequest where
  messages : List ChatMessage
  temperature : ℚ
  top_p : ℚ
  frequency_penalty : ℚ
  presence_penalty : ℚ
deriving DecidableEq

/-- External services used by the task-plan run: the embedding endpoint
(`embed text = none` models the HTTP call failing), the Weaviate
`near_vector` query (`search_ok = false` models it raising), and the chat
endpoint (`chat req = none` models the HTTP call failing). -/
structure QueryOracle where
  embed : String → Option Embedding
  search_ok : Bool
  chat : ChatRequest → Option String

/-- `get_vector_embedding` from `search_code_base.py`: on HTTP failure it
prints the error and re-raises, so the failure propagates as an
exception. -/
def get_vector_embedding (embed : String → Option Embedding) (text : String) :
    Except String Embedding :=
  match embed text with
  | some v => Except.ok v
  | none => Except.error "Error getting embeddings"

/-- Default of the `limit` parameter of `search_code_base`. -/
def default_search_limit : Nat := 5

/-- The match list `search_code_base` builds from `results.objects`: one
`{file_path, content}` dict per returned object. -/
def search_matches (store : VectorStore) (v : Embedding) (lim : Nat) :
    List StoredDoc :=
  (near_vector store v lim).map (fun d => StoredDoc.mk d.file_path d.content)

/-- `search_code_base(query, limit)`: embed the query (re-raising on
failure), run the `near_vector` query, and rebuild the matches. -/
def search_code_base (o : QueryOracle) (store : VectorStore) (query : String)
    (lim : Nat) : Except String (List StoredDoc) :=
  match get_vector_embedding o.embed query with
  | Except.error e => Except.error e
  | Except.ok qv =>
      if o.search_ok then Except.ok (search_matches store qv lim)
      else Except.error "vector search failed"

/-- `format_code_context`: join one fenced block per result with newlines. -/
def format_code_context (search_results : List StoredDoc) : String :=
  String.intercalate "\n"
    (search_results.map (fun r =>
      "File: " ++ r.file_path ++ "\n\x60\x60\x60python\n" ++ r.content ++
        "\n\x60\x60\x60\n"))

def system_prompt_before_code : String :=
  "\n    ### Task Planning\n\n#### Objective  \nAnalyze the provided codebase context and user task to generate a structured implementation plan for the Django project. Consider dependencies, required changes, and implementation steps.\n\n#### Relevant Code snippets\n"

def system_prompt_after_code : String :=
  "\n\n#### Output Requirements  \n\n1. **Project Blueprint**  \n   - Define core models with relationships (1:1, 1:M, M:M)\n   - Specify Django apps structure \n\n2. **Model Definitions**  \n   \x60\x60\x60python\n   # Example \n   class Task(models.Model):\n       COMPLETE = \"Complete\"\n       INCOMPLETE = \"Incomplete\"\n       STATUS_CHOICES = [\n           (COMPLETE, \"Complete\"),\n           (INCOMPLETE, \"Incomplete\")\n       ]\n       detail = models.CharField(max_length=200)\n       status = models.CharField(max_length=20, choices=STATUS_CHOICES, default=INCOMPLETE)\n   \x60\x60\x60\n\n3. **Implementation Checklist and detailed code changes**\n\n#### Coding conventions and rules\n<ProjectArchitecture>\n\nThis outlines the Clean Architecture implementation of the project. It describes the folder structure, responsibilities of each layer, and guidelines for development within this architecture.\n<FolderStructure>\n├── __init__.py\n├── admin.py\n├── app.py\n├── exceptions\n│   ├── __init__.py\n│   └── custom_exceptions.py\n├── interactors\n│   ├── __init__.py\n│   ├── create_interview_attempt_interactor.py\n│   ├── storage_interfaces\n│   │   ├── __init__.py\n│   │   ├── dtos.py\n│   │   └── storage_interface.py\n├── models\n│   ├── __init__.py\n│   ├── models.py\n├── storages\n│   ├── __init__.py\n│   └── storage_implementation.py\n</FolderStructure>\n\n<CleanArchitecture>\n\n<LayerExplanation>\n\n<Exceptions>\nThe exceptions package, specifically the custom_exceptions module, defines all custom exceptions used throughout the app. These custom exceptions help in handling specific error scenarios in a structured manner.\n</Exceptions>\n\n<Interactors>\nThe interactors package implements the core business logic of the app. It contains interactor classes for both complex operations and simple CRUD operations. The package includes DTOs and storage_interfaces for defining storage interfaces and DTOs. They manage the flow of data between the outer layers of the application.\n</Interactors>\n\n<Models>\nThe models package contains all Django models for the app. These models define the database schema and represent the core data structures used throughout the application.\n</Models>\n\n<Storages>\nThe storages package contains implementations of storage interfaces. It handles database interactions and implements methods defined in the storage interfaces. Large storage interfaces may be split into multiple classes and files. The package also includes storage-specific DTOs, which may be organized into multiple files if there are multiple storage interfaces in the app.\n</Storages>\n\n</LayerExplanation>\n\n</CleanArchitecture>\n\n<CleanCodeInstructions>\n\n<Naming>\n1. Clarity and Intent:\n   - Names should clearly answer why it exists, what it does, and how it\x27s used.\n   - Specify what is being measured and the unit of measurement.\n   - Use appropriate names (e.g., plural for groups, suffixes like _dict, _list).\n2. Differentiation:\n   - For similar names, put variations at the beginning or end to differentiate easily.\n   - Avoid number-series naming (a1, a2, ...) unless intended.\n3. Readability:\n   - Don\x27t use noise words (e.g., data, info) for distinction.\n   - Make variable names pronounceable.\n   - Avoid cryptic abbreviations (e.g., genymdhms).\n   - Don\x27t use similar names with minor variations (e.g., kar instead of car).\n</Naming>\n\n<Readability>\n1. Size and Complexity:\n   - Limit functions to 20 lines (30 max for exceptions).\n   - Keep indent levels to 3 or less (4 max for exceptions).\n   - Limit blocks within if, else, while, and for statements to 4 lines max.\n2. Simplicity:\n   - Avoid flag arguments (boolean, enums, integers).\n   - Keep conditional expressions simple; extract complex ones into functions.\n   - Avoid negative conditionals (prefer positive phrasing).\n3. Error Handling:\n   - Limit try-catch blocks to 4 lines; extract longer bodies into separate functions.\n4. Code Organization:\n   - Group related functions together within a file.\n   - Place the most important and frequently used functions at the top of the file.\n   - Separate concerns within a file using clear, descriptive comments.\n   - Use consistent spacing between functions and logical sections of code.\n</Readability>\n\n<ProjectCodeStyling>\n1. Naming Conventions:\n   - Class names for factories and DTOs must include \"Factory\" or \"DTO\" respectively.\n   - Variable names of model or model factory instances should end with \"_object\".\n   - Variable names of DTO or DTO factory instances need to end with \"_dto\".\n\n2. Typing:\n    - Include type information for all method signatures (input args & return) and instance variables.\n   - Avoid typing for local variables.\n   - Omit return type for methods that don\x27t return anything. DO NOT add None as return type.\n   - Typing is not needed for test methods.\n\n</ProjectCodeStyling>\n\n</CleanCodeInstructions>\n\n</ProjectArchitecture>\n\n<NewAPIGuide>\n\n<ControlFlow>\n- Interactor is the main class where the control flow starts and is called from api layer.\n- Interactor interacts with storage layer for data requirements\n- Interactor performs necessary data validations, gathers required data from storage.\n</ControlFlow>\n\n\n<TaskRelatedFiles>\n\nThe following file structure outlines the key areas where changes may be required for this task, adhering to clean architecture principles:\n\n\x60\x60\x60\napp\n├── __init__.py\n├── exceptions\n│   ├── __init__.py\n│   └── custom_exceptions.py\n├── interactors\n│   ├── __init__.py\n│   ├── create_interview_attempt_interactor.py\n│   └── storage_interfaces\n│       ├── __init__.py\n│       ├── dtos.py\n│       └── storage_interface.py\n├── models\n│   └── __init__.py\n├── storages\n│   └── __init__.py\n\x60\x60\x60\n\nNote: Focus on these files and folders when implementing the required changes. They represent the core components of the application\x27s architecture that are likely to be affected by this task.\n\n</TaskRelatedFiles>\n\n<ImplementationGuide>\n\n<InteractorGuide>\n\n<FileLocation>\n\x60<app_name>/interactors/<interactor_name>_interactor.py\x60\n</FileLocation>\n\n<Responsibility>\nThe interactor contains the core business logic, including data validation, processing, and interaction with the storage layer with the help of DTOs.\n</Responsibility>\n\n<ImplementationApproach>\n1. Define the Interactor Class:\n   - Create a class named according to the use case <UseCaseName>Interactor. (e.g., \x60GetUserSubscriptionsPlansInteractor\x60).\n   - Initialize it with the necessary storage interfaces via dependency injection.\n\n2. Implement the Main Processing Method:\n   - Define a method (e.g., \x60<interactor_name>\x60) that accepts the necessary input parameters.\n   - This method should:\n     a. Validate the given data\n     b. Convert the input data into Data Transfer Objects (DTOs) when calling the storage methods\n     c. Call respective storage methods for data operations\n     d. Return the result as a DTO\n\n3. Data Validations:\n   - Perform data validations as mentioned in the requirement.\n   - If required, interact with storage interfaces for data validations.\n   - Write separate methods for each validation to improve readability.\n   - DO NOT perform validations in loops\n   - DO NOT write nested loops\n\n4. Fetch Existing Data:\n   - Use storage interface methods to retrieve existing records from the database for comparison.\n   - Avoid duplicate queries by passing fetched data to subsequent methods if needed.\n   - Use bulk operations (e.g., passing a list of ids) instead of querying in loops.\n\n</ImplementationApproach>\n\n<KeyPoints>\n- Break down the interactor methods into smaller, reusable functions, each handling a specific task (e.g., validation, data categorization).\n- Write each validation into a separate method and call them from main validation method.\n- Interactors should not directly access the database. All DB operations should be performed via storage interfaces only.\n- Pass Data to storage only in the form of DTOs. AVOID sending dictionaries. List of DTOs are allowed.\n- Make the code simpler and readable. do not write unnecessary abstractions.\n</KeyPoints>\n\n</InteractorGuide>\n\n<StorageLayerGuide>\n\n<FileLocation>\n\x60<app_name>/interactors/storage_interfaces/storage_interface.py\x60\n</FileLocation>\n\n<Responsibility>\nThe storage layer manages the interaction with database layer. Implement necessary storage methods to support the interactor\x27s operations.\n</Responsibility>\n\n<ImplementationApproach>\n\n1. Review Existing Methods:\n   - Examine \x60interactors/storage_interfaces/storage_interface.py\x60 to identify existing methods.\n   - If required methods are missing, add them to the storage interface and proceed with implementing them in \x60storages/storage_implementation.py\x60.\n\n2. General Guidelines:\n   - DO NOT write queries inside loops.\n   - Avoid logic in storage methods. They should query the db with appropriate django orm query and use simple dto conversions.\n   - Avoid creating/updating data in multiple models within a single storage method. Follow SRP for each method to encourage readability.\n\n3. Create Storage Methods:\n   - Always use bulk_create method to create data in bulk.\n   - Use batch size of 1000.\n   - DO NOT use \x60create\x60 method of django. Use \x60bulk_create\x60 method only.\n\n4. Update Storage Methods:\n   - Update only relevant fields passed in the dtos.\n   - DO NOT update any additional fields in model what are not passed in dtos.\n   - Update last_update_datetime when updating data with current datetime using get_current_local_date_time method.\n   - USE \x60bulk_update\x60 method to update the data in efficient way.\n   - Use batch size of 1000.\n   - DO NOT use \x60update\x60 method in loops. USE \x60bulk_update\x60 instead.\n   - USE fields parameter to mention which fields to be updated.\n\n5. Fetching Storage Methods:\n   - Use \x60filter\x60 method to filter data.\n   - Type cast uuid to str when returning data.\n   - PREFER returning DTOs unless they are native data types.\n   - Write dto conversion into separate methods for readability and reuse.\n   - Prefer returning the data using DTOs only. Avoid any other data types like dictionaries are NOT ALLOWED. If required, List of DTOs or List of ids or native data types can be returned for ease of use.\n   - Avoid querying multiple models in a single storage method. Follow SRP for each method to encourage readability.\n\n</ImplementationApproach>\n\n<KeyPoints>\n- Plan the implementation of new storage methods, considering what already exists and what needs to be added.\n- Ensure that storage implementations align with the defined interfaces for consistency and maintainability.\n- Do not write loops in the storage methods.\n- Accept and Return data using DTOs only unless required to return simple native data types for ease of use.\n- Prefer SRP for each storage method to promote readability.\n</KeyPoints>\n\n<StorageLayerGuide>\n\n<DTOGuide>\n\n<FileLocation>\n\x60<app_name>/interactors/storage_interfaces/dtos.py\x60\n</FileLocation>\n\n<Responsibility>\nDTOs standardize data structures when transferring data between layers, ensuring consistency and ease of maintenance.\n</Responsibility>\n\n<ImplementationApproach>\n\n1. Define the DTO:\n   - Define the DTO with all the fields with appropriate typing as optional in relevant file of storage interfaces.\n   - Prefer Keeping DTOs simple by avoiding nested DTOs unless necessary as per the model structure or requirement.\n\n2. Using DTOs:\n   - When interacting with storage layer pass the data in DTOs only.\n   - When retrieving data from storage layer use DTOs to represent the data.\n\n3. DTO Naming and Reuse:\n   - DO NOT write DTOs with same fields with different names. (Ex: CreateUserDTO, UpdateUserDTO is not encouraged if both have same fields). Reuse the existing DTO in this case unless the name is totally violating principles. (Ex: using CreateUserDTO for UpdateUserDTO)\n   - DTO names should be standard and should not be directly linked to usecase. They should be generic while preserving the purpose of the DTO.\n     - Examples of Good Names - UserPlanDTO, UserInterviewDTO, InterviewConfigDTO\n     - Examples of Bad Names - CreateUserPlanDTO, UpdateUserPlanDTO, UpdateInterviewConfigDTO\n   - Be conscious of the names and keep consistent usage across files.\n\n</ImplementationApproach>\n\n<KeyPoints>\n- DTOs ensure consistent data structures across different layers of the application.\n- Using DTOs helps decouple the layers, making it easier to modify one layer without affecting others.\n- DO NOT add default values or optional values to DTO.\n</KeyPoints>\n\n</DTOGuide>\n\n<AdditionalConsiderations>\n- Follow <ProjectArchitecture> & <CleanCodeInstructions> strictly while implementing.\n- DO NOT make any logical mistakes.\n- Prefer Readability to Optimization in most cases.\n- DO NOT change additional files/code unless they are directly related to requirement.\n- DO NOT WRITE TESTS.\n- If a function doesn\x27t return anything, DO NOT add typing for it.\n- DO NOT USE ANY MIXIN CLASSES for validations\n</AdditionalConsiderations>\n\n<InputRequirementFormat>\nObjective - To summarize the core changes to be done.\nRequestFormat - will give info about the api request format\nResponseFormat - will give info about the api response format\nInteractorChanges - Will give additional info on changes needed interactor\n    - validations - this mentions the validations needed to be done\n    - Note - this mentions additional considerations about interactor implementation\nStorageChanges - Will give additional info on changes needed in storage layer\n    - Note - this mentions additional considerations about storage implementation\nDTOChanges - Will give additional info on changes needed in DTOs\n    - Note - this mentions additional considerations about DTO implementation\nAdditionalContext - This mentions additional project level considerations related to this requirement\nNote - This mentions the things which need to keep in mind throughout the implementation\n<InputRequirementFormat>\n\n<OutputFormat>\nFor each file follow this structure before writing the code:\n - DO\x27s - This section includes patterns to follow for writing this file\n    - Includes core guidelines\n    - Includes specific instructions from requirement if mentioned.\n - Dont\x27s - This section includes patterns to avoid while writing this file\n    - Includes patterns that should be avoided as per guidelines.\n    - Includes specific patterns to be avoided if mentioned in requirement.\n\nNOTE - Code should be implemented only after considering the <DO\x27S> and <DONT\x27S> sections.\n</OutputFormat>\n\n<Example>\n\n<Note>\nThe below examples are only for reference and structure. Identify the patterns from the examples on writing code by following the above guidelines.\n</Note>\n\n<Note>\n1. This example is for simple get details use case with no integration of external services.\n2. If you observe any DTOs or storage methods are not present in the respective files, that implies they are already implemented in the codebase.\n</Note>\n\n<Requirement>\n\n<Objective>\nWrite an interactor to get interview details by interview id\napp name - ai_interview\n</Objective>\n\n<FilesToModify>\n<app_name>/interactors/<interactor_name>_interactor.py\n<app_name>/interactors/<storage_interface_name>_interfaces/dtos.py - CHANGE ONLY IF REQUIRED DTOS ARE NOT PRESENT\n<app_name>/interactors/<storage_interface_name>_interfaces/<relevant storage>_interface.py -  CHANGE ONLY IF REQUIRED METHODS ARE NOT PRESENT\n<app_name>/storages/<relevant storage>_implementation.py - CHANGE ONLY IF NEW METHODS ARE ADDED IN STORAGE INTERFACE\n.... other files if required\n</FilesToModify>\n\n<RequestFormat>\n<\n    \"interview_id\": \"89d96f4b-c19d-4e69-8eae-e818f3123b09\"\n>\n</RequestFormat>\n\n<ResponseFormat>\n<\n    \"interview_details\": <\n        \"title\": \"string\",\n        \"description\": \"string\",\n        \"duration_in_secs\": 1\n    >,\n    \"config\": <\n        \"should_end_interview_after_duration\": true,\n        \"is_default_access_allowed\": true\n    >\n>\n\n</ResponseFormat>\n\n<InteractorChanges>\n\n<Input>\ninterview_id - id of the interview\n</Input>\n\n<Validations>\n- validate if interview exists\n</Validations>\n\n<Note>\n- write separate storage methods to get data\n</Note>\n\n</InteractorChanges>\n\n<Note>\nMake the code production ready and don\x27t leave any placeholders.\n</Note>\n\nFOLLOW THE GUIDELINES IN <NewAPIGuide> STRICTLY AND FOLLOW THE CONVENTIONS IN THE <Examples> in <NewAPIGuide>\n\nSTART IMPLEMENTATION OF EACH FILE WITH <DO\x27S> AND <DONT\x27S> SECTIONS\n\n</Requirement>\n\n<Do\x27s>\n- Implement the main processing method (get_interview_details)\n- Convert data to DTOs before sending to or receiving from storage methods.\n- Break down complex logic into smaller, more manageable methods (like _get_interview_complete_config_details).\n- Use storage interface methods to retrieve data from the database.\n- Keep code readable by assigning descriptive names to variables, methods and separation between lines.\n- If same data is required for multiple methods, pass the data instead of repeated calling of storage methods.\n- Interaction with storage should be done through DTOs only.\n</Do\x27s>\n\n<Don\x27ts>\n- DO NOT perform create or update operations in this interactor (it\x27s for retrieval only).\n- DO NOT use DTOs with default values\n- DO NOT call storage methods in loops.\n- DO NOT write nested loops.\n- DO NOT add logic that\x27s not directly related to the get_interview_details use case.\n</Don\x27ts>\n\nNow, I will consider the above <DO\x27S> and <DONT\x27S> sections while writing the code.\n\nai_interview/interactors/get_interview_details_interactor.py\n\x60\x60\x60\nfrom ai_interview.exceptions.custom_exceptions import \\\n    InvalidInterviewIdException, \\\n    InterviewConfigDoesNotExistException\nfrom ai_interview.interactors.storage_interfaces.dtos import \\\n    InterviewDTO\nfrom ai_interview.interactors.storage_interfaces.interview_storage_interface \\\n    import InterviewStorageInterface\n\n\nclass GetInterviewDetailsInteractor:\n    def __init__(self, interview_storage: InterviewStorageInterface):\n        self.interview_storage = interview_storage\n\n    def get_interview_details(self, interview_id: str, user_id: str) \\\n            -> InterviewWithConfigDTO:\n        interview_dto = self._validate_and_get_interview_details(interview_id)\n\n        config_dto = self._get_interview_config_details(interview_id)\n\n        return InterviewWithConfigDTO(\n            interview_dto=interview_dto,\n            config_dto=config_dto)\n\n    def _validate_and_get_interview_details(\n            self, interview_id: str) -> InterviewDTO:\n\n        interview_dtos = self.interview_storage.get_interviews_details([interview_id])\n\n        if not interview_dtos:\n            raise InvalidInterviewIdException\n\n        interview_dto = interview_dtos[0]\n\n        return interview_dto\n\n    def _get_interview_config_details(self, interview_id: str) \\\n            -> InterviewConfigDTO:\n\n        interview_config_dtos = \\\n        self.interview_storage.get_interview_config_details([interview_id])\n\n        if not interview_config_dtos:\n            raise InterviewConfigDoesNotExistException\n\n        interview_config_dto = interview_config_dtos[0]\n\n        return interview_config_dto\n\n\x60\x60\x60\n\n<Do\x27s>\n- If storages methods with required functionality are not present in implementation classes then add new storage interface methods otherwise reuse them.\n- Add new abstract methods in the interface if required.\n</Do\x27s>\n\n<Dont\x27s>\n- DO NOT add methods that already exists in the implementation classes.\n</Dont\x27s>\n\nNow, I will consider the above <DO\x27S> and <DONT\x27S> sections while writing the code.\n\nai_interview/interactors/storage_interfaces/interview_storage_interface.py\n\x60\x60\x60\n\nclass InterviewStorageInterface(abc.ABC):\n    ...existing methods\n\n    @abc.abstractmethod\n    def get_interview_config_details(self, interview_ids: List[str]) -> \\\n            List[InterviewConfigDTO]:\n        pass\n\n\x60\x60\x60\n\n<Do\x27s>\n- Implement the new methods defined in the storage interface.\n- Type cast uuid fields to str when returning data from storage methods.\n- Write separate methods to convert data to DTOs for reusability.\n- Use the get_current_local_date_time method to get current datetime.\n</Do\x27s>\n\n<Dont\x27s>\n- DO NOT query multiple models in a storage method.\n- DO NOT write any query in loops.\n</Dont\x27s>\n\nNow, I will consider the above <DO\x27S> and <DONT\x27S> sections while writing the code.\n\nai_interview/storages/interview_storage_implementation.py\n\x60\x60\x60\nclass InterviewStorageImplementation(InterviewStorageInterface):\n\n    ... existing methods\n\n    def get_interview_config_details(self, interview_ids: List[str]) -> \\\n            List[InterviewConfigDTO]:\n\n        interview_configs = InterviewConfig.objects.filter(\n            interview_id__in=interview_ids)\n\n        interview_config_dtos = [\n            InterviewConfigDTO(\n                interview_id=str(each.interview_id),\n                is_default_access_allowed=each.is_default_access_allowed,\n                should_end_interview_after_duration=\n                each.should_end_interview_after_duration,\n            )\n            for each in interview_configs\n        ]\n\n        return interview_config_dtos\n\n\x60\x60\x60\n\n<Do\x27s>\n- If DTOs with required functionality are not present in the interfaces or dtos files, then add them.\n- Prefer independent DTOs instead of nested DTOs.\n- Keep namings for DTOs reuseable instead of tying close to specific requirement.\n- DTOs should be independent of each other.\n- DTOs interacting with storage layer should be there in storage interfaces.\n</Do\x27s>\n\n<Dont\x27s>\n- DO NOT assign default values to fields in DTOs.\n</Dont\x27s>\n\nNow, I will consider the above <DO\x27S> and <DONT\x27S> sections while writing the code.\n\nai_interview/interactors/storage_interfaces/dtos.py\n\x60\x60\x60\n... existing dtos\n\n@dataclass\nclass InterviewConfigDTO:\n    interview_id: str\n    is_default_access_allowed: bool\n    should_end_interview_after_duration: bool\n\x60\x60\x60\n\n<Do\x27s>\n- If DTOs with required functionality are not present in the interfaces or dtos files, then add them.\n- Prefer independent DTOs instead of nested DTOs.\n- Keep namings for DTOs reuseable instead of tying close to specific requirement.\n- DTOs should be independent of each other.\n- DTOs interacting with storage layer should be there in storage interfaces.\n</Do\x27s>\n\n<Dont\x27s>\n- DO NOT assign default values to fields in DTOs.\n</Dont\x27s>\n\nNow, I will consider the above <DO\x27S> and <DONT\x27S> sections while writing the code.\n\nai_interview/interactors/dtos.py\n\x60\x60\x60\n... existing dtos\n\n\n@dataclass\nclass InterviewWithConfigDTO:\n    interview_dto: InterviewDTO\n    config_dto: InterviewConfigDTO\n\n\x60\x60\x60\n\n</Example>\n\n    "

/-- `SYSTEM_PROMPT.format(code=code_context)` from `generate_task_plan.py`:
the template `scripts/constants.py:SYSTEM_PROMPT` has a single `code`
placeholder, so formatting splices the code context between the two literal
halves above. -/
def format_system_prompt (code_context : String) : String :=
  system_prompt_before_code ++ code_context ++ system_prompt_after_code

/-- The request body built by `get_chat_completion`: a system and a user
message, `temperature 0`, `top_p 1`, `frequency_penalty 0`,
`presence_penalty 0.5`. -/
def build_chat_request (system_prompt user_query : String) : ChatRequest :=
  ChatRequest.mk
    [ChatMessage.mk "system" system_prompt, ChatMessage.mk "user" user_query]
    0 1 0 0.5

/-- `get_chat_completion`: post the request; on HTTP failure print the
error and re-raise, so the failure propagates as an exception. -/
def get_chat_completion (o : QueryOracle) (system_prompt user_query : String) :
    Except String String :=
  match o.chat (build_chat_request system_prompt user_query) with
  | some content => Except.ok content
  | none => Except.error "Error getting chat completion"

/-- `save_query_and_response`: the markdown file written for one run, as a
(filename, content) pair.  `timestamp` stands for
`datetime.now().strftime("%Y%m%d_%H%M%S")` and `header_ts` for the
human-readable timestamp interpolated into the heading. -/
def save_query_and_response
    (timestamp header_ts query task_plan code_context : String) :
    String × String :=
  ("queries/query_" ++ timestamp ++ ".md",
   "# Task Query - " ++ header_ts ++ "\n\n## User Query\n" ++ query ++
     "\n\n## Task Plan\n" ++ task_plan ++ "\n\n## Relevant Code Context\n" ++
     code_context ++ "\n")

/-- Observable output state of one `generate_task_plan` run: the chat
requests issued, the markdown files written, the task plan printed to
stdout (if any), and the error printed by the top-level handler (if
any). -/
structure RunOutput where
  chat_requests : List ChatRequest
  saved_files : List (String × String)
  printed_plan : Option String
  error_printed : Option String
deriving DecidableEq

/-- `generate_task_plan`: search the code base, format the context, splice
it into the system prompt, call the chat endpoint, save the markdown file
and print the plan; any exception from the three external calls is caught
by the single top-level `except`, which prints the error — at which point
nothing has been saved or printed. -/
def generate_task_plan (o : QueryOracle) (store : VectorStore)
    (timestamp header_ts user_query : String) : RunOutput :=
  match search_code_base o store user_query default_search_limit with
  | Except.error e =>
      RunOutput.mk [] [] none (some ("Error during task planning: " ++ e))
  | Except.ok search_results =>
      let code_context := format_code_context search_results
      let system_prompt := format_system_prompt code_context
      match get_chat_completion o system_prompt user_query with
      | Except.error e =>
          RunOutput.mk [build_chat_request system_prompt user_query] [] none
            (some ("Error during task planning: " ++ e))
      | Except.ok task_plan =>
          RunOutput.mk [build_chat_request system_prompt user_query]
            [save_query_and_response timestamp header_ts user_query task_plan
              code_context]
            (some task_plan) none

/-- `needle` occurs verbatim (as a contiguous substring) in `hay`. -/
def ContainsVerbatim (hay needle : String) : Prop :=
  ∃ pre post, hay.data = pre ++ needle.data ++ post

/-- Oracle for the witness of C3: embedding the content `"boom"` fails,
every other call succeeds. -/
def c3_oracle : IndexOracle :=
  IndexOracle.mk (fun s => if s = "boom" then none else some [1, 2])
    (fun _ => true)

/-- Witness file for C3 whose embedding call fails. -/
def c3_file_bad : FileEntry :=
  FileEntry.mk true ".py" ["a.py"] "boom" "a.py"

/-- Witness file for C3 processed after the failing one. -/
def c3_file_good : FileEntry :=
  FileEntry.mk true ".py" ["b.py"] "ok" "b.py"

/-- Oracle for the witness of C4: the query-side embedding call fails. -/
def c4_oracle : QueryOracle :=
  QueryOracle.mk (fun _ => none) true (fun _ => some "plan")

/-- Vector store for the witness of C4. -/
def c4_store : VectorStore := VectorStore.mk []

/-- Oracle for the witness of C5. -/
def c5_oracle : IndexOracle :=
  IndexOracle.mk (fun _ => some [3]) (fun _ => true)

/-- Witness file for C5: eligible but empty after stripping. -/
def c5_file : FileEntry :=
  FileEntry.mk true ".py" ["c.py"] "  \n " "c.py"

/-- Oracle for the witness of C6: embedding succeeds, search succeeds. -/
def c6_oracle : QueryOracle :=
  QueryOracle.mk (fun _ => some [0]) true (fun _ => none)

/-- Vector store for the witness of C6: two documents, fewer than the
default limit of five. -/
def c6_store : VectorStore :=
  VectorStore.mk
    [(StoredDoc.mk "a.py" "A", [1]), (StoredDoc.mk "b.py" "B", [2])]

end Scripts

namespace Interview

/-- C1: when the storage lookup for `interview_id` returns the empty list,
`create_interview_attempt` raises `InvalidInterviewIdException` and passes
no DTO to the storage's `create_interview_attempt` (empty effect trace). -/
theorem create_interview_attempt_invalid_id
    (storage : InterviewStorageInterface) (now : Nat)
    (interview_id user_id : String)
    (h : storage.get_interview_details [interview_id] = []) :
    create_interview_attempt storage now interview_id user_id =
      (Except.error InterviewException.invalidInterviewIdException, []) := by
  simp [create_interview_attempt, validate_interview_details, h]

/-- Witness for C1 at a concrete input. -/
theorem create_interview_attempt_invalid_id_witness :
    c1_storage.get_interview_details ["iid-missing"] = [] ∧
    create_interview_attempt c1_storage 100 "iid-missing" "user-1" =
      (Except.error InterviewException.invalidInterviewIdException, []) :=
  ⟨rfl, create_interview_attempt_invalid_id c1_storage 100 "iid-missing"
      "user-1" rfl⟩

/-- C2: when the storage lookup finds the interview (non-empty result),
`create_interview_attempt` passes exactly one DTO to the storage's
`create_interview_attempt`, with `start_datetime` the current time,
`end_datetime = none`, `scheduled_end_datetime = none`, and returns no
value (`ok ()`). -/
theorem create_interview_attempt_valid_id
    (storage : InterviewStorageInterface) (now : Nat)
    (interview_id user_id : String)
    (h : (storage.get_interview_details [interview_id]).isEmpty = false) :
    create_interview_attempt storage now interview_id user_id =
      (Except.ok (),
       [InterviewAttemptDTO.mk interview_id user_id now none none]) := by
  simp [create_interview_attempt, validate_interview_details, h]

/-- Witness for C2 at a concrete input. -/
theorem create_interview_attempt_valid_id_witness :
    (c2_storage.get_interview_details ["iid-1"]).isEmpty = false ∧
    create_interview_attempt c2_storage 42 "iid-1" "user-7" =
      (Except.ok (),
       [InterviewAttemptDTO.mk "iid-1" "user-7" 42 none none]) :=
  ⟨rfl, create_interview_attempt_valid_id c2_storage 42 "iid-1" "user-7" rfl⟩

/-- C9: the storage adapter forwards only `interview_id`, `user_id`,
`start_datetime` and `end_datetime` to the database insert; the value of
`scheduled_end_datetime` carried by the DTO never reaches the insert, so
the issued insert is literally those four DTO fields and is unchanged under
any replacement of `scheduled_end_datetime`. -/
theorem storage_insert_ignores_scheduled_end :
    (∀ dto : InterviewAttemptDTO,
      storage_create_interview_attempt dto =
        InterviewAttemptInsert.mk dto.interview_id dto.user_id
          dto.start_datetime dto.end_datetime) ∧
    ∀ (dto : InterviewAttemptDTO) (s : Option Nat),
      storage_create_interview_attempt
        (InterviewAttemptDTO.mk dto.interview_id dto.user_id
          dto.start_datetime dto.end_datetime s) =
      storage_create_interview_attempt dto :=
  ⟨fun _ => rfl, fun _ _ => rfl⟩

end Interview

namespace Scripts

/-- `String.append` acts as `List.append` on the character data. -/
theorem string_data_append (a b : String) :
    (a ++ b).data = a.data ++ b.data := rfl

/-- `startsWithList` decides the initial-segment relation. -/
theorem startsWithList_iff (n : List Char) :
    ∀ h : List Char, startsWithList n h = true ↔ ∃ post, h = n ++ post := by
  induction n with
  | nil => intro h; simp [startsWithList]
  | cons a n ih =>
    intro h
    cases h with
    | nil =>
      simp only [startsWithList]
      constructor
      · intro hh; exact Bool.noConfusion hh
      · rintro ⟨post, hp⟩; simp at hp
    | cons b h =>
      simp only [startsWithList, Bool.and_eq_true, beq_iff_eq, ih,
        List.cons_append, List.cons_eq_cons]
      constructor
      · rintro ⟨hab, post, hpost⟩
        exact ⟨post, hab.symm, hpost⟩
      · rintro ⟨post, hba, hpost⟩
        exact ⟨hba.symm, post, hpost⟩

/-- `hasSubstrList` decides contiguous-substring containment. -/
theorem hasSubstrList_iff (n : List Char) :
    ∀ h : List Char,
      hasSubstrList n h = true ↔ ∃ pre post, h = pre ++ n ++ post := by
  intro h
  induction h with
  | nil =>
    simp only [hasSubstrList, startsWithList_iff]
    constructor
    · rintro ⟨post, hp⟩
      exact ⟨[], post, by simpa using hp⟩
    · rintro ⟨pre, post, hp⟩
      rcases List.append_eq_nil.mp hp.symm with ⟨h1, h2⟩
      rcases List.append_eq_nil.mp h1 with ⟨h3, h4⟩
      exact ⟨post, by simp [h4, h2]⟩
  | cons c rest ih =>
    simp only [hasSubstrList, Bool.or_eq_true, startsWithList_iff, ih]
    constructor
    · rintro (⟨post, hp⟩ | ⟨pre, post, hp⟩)
      · exact ⟨[], post, by simpa using hp⟩
      · exact ⟨c :: pre, post, by simp [hp]⟩
    · rintro ⟨pre, post, hp⟩
      cases pre with
      | nil => exact Or.inl ⟨post, by simpa using hp⟩
      | cons x pre =>
        rw [List.cons_append, List.cons_append] at hp
        rcases List.cons_eq_cons.mp hp with ⟨hx, hrest⟩
        exact Or.inr ⟨pre, post, hrest⟩

/-- `str_in` (Python's `in` on strings) decides substring containment. -/
theorem str_in_iff (needle hay : String) :
    str_in needle hay = true ↔
      ∃ pre post, hay.data = pre ++ needle.data ++ post :=
  hasSubstrList_iff needle.data hay.data

/-- The exclusion test of the indexing walk, characterized pointwise over
the path components. -/
theorem excluded_dirs_none_iff (parts : List String) :
    (excluded_dirs.any (fun d => decide (d ∈ parts))) = false ↔
      ∀ p ∈ parts, p ≠ "scripts" ∧ p ≠ "venv" ∧ p ≠ ".specstory" := by
  have h : (excluded_dirs.any (fun d => decide (d ∈ parts))) = false ↔
      "scripts" ∉ parts ∧ "venv" ∉ parts ∧ ".specstory" ∉ parts := by
    simp [excluded_dirs]
  rw [h]
  constructor
  · rintro ⟨h1, h2, h3⟩ p hp
    exact ⟨fun e => h1 (e ▸ hp), fun e => h2 (e ▸ hp), fun e => h3 (e ▸ hp)⟩
  · intro hall
    exact ⟨fun hm => (hall _ hm).1 rfl, fun hm => (hall _ hm).2.1 rfl,
      fun hm => (hall _ hm).2.2 rfl⟩

/-- C5: an eligible file whose content is empty after stripping is skipped
outright: the outcome is the skip, no embedding call and no insert call is
issued (empty call trace), and nothing is inserted. -/
theorem empty_file_skipped (o : IndexOracle) (f : FileEntry)
    (helig : should_process_the_file f = true)
    (hempty : py_strip f.content = "") :
    process_file o f = (StepOutcome.skippedEmpty, []) := by
  simp [process_file, helig, index_file_body, hempty]

/-- Witness for C5 at a concrete eligible, whitespace-only file. -/
theorem empty_file_skipped_witness :
    should_process_the_file c5_file = true ∧
    py_strip c5_file.content = "" ∧
    process_file c5_oracle c5_file = (StepOutcome.skippedEmpty, []) :=
  ⟨rfl, rfl, empty_file_skipped c5_oracle c5_file rfl rfl⟩

/-- C3: a failure while processing one file (`g`) is confined to that
file's iteration: the run over `pre ++ g :: post` is the independent
processing of every file in order, and every file after `g` is still
processed with its own outcome. -/
theorem index_loop_isolates_failures (o : IndexOracle) (pre : List FileEntry)
    (g : FileEntry) (post : List FileEntry)
    (h : ∃ msg, (process_file o g).1 = StepOutcome.errorLogged msg) :
    index_code_base o (pre ++ g :: post) =
      index_code_base o pre ++
        (g, process_file o g) :: index_code_base o post ∧
    ∀ f ∈ post,
      (f, process_file o f) ∈ index_code_base o (pre ++ g :: post) := by
  refine ⟨by simp [index_code_base], ?_⟩
  intro f hf
  unfold index_code_base
  exact List.mem_map.mpr ⟨f, by simp [hf], rfl⟩

/-- Witness for C3: the first file's embedding call fails, the file after
it is still processed (and inserted). -/
theorem index_loop_isolates_failures_witness :
    (∃ msg, (process_file c3_oracle c3_file_bad).1 =
      StepOutcome.errorLogged msg) ∧
    (index_code_base c3_oracle ([] ++ c3_file_bad :: [c3_file_good]) =
        index_code_base c3_oracle [] ++
          (c3_file_bad, process_file c3_oracle c3_file_bad) ::
            index_code_base c3_oracle [c3_file_good] ∧
      ∀ f ∈ [c3_file_good],
        (f, process_file c3_oracle f) ∈
          index_code_base c3_oracle ([] ++ c3_file_bad :: [c3_file_good])) :=
  ⟨⟨"Failed to get embedding", rfl⟩,
    index_loop_isolates_failures c3_oracle [] c3_file_bad [c3_file_good]
      ⟨"Failed to get embedding", rfl⟩⟩

/-- C10: a walked entry is eligible for indexing iff it is a regular file,
its suffix contains the substring ".py", and no path component is
"scripts", "venv" or ".specstory"; concretely, a ".pyc" suffix qualifies
while ".txt" and ".md" do not. -/
theorem indexing_eligibility_characterization :
    (∀ f : FileEntry,
      should_process_the_file f = true ↔
        (f.is_file = true ∧
         (∃ pre post, f.suffix.data = pre ++ ".py".data ++ post) ∧
         ∀ p ∈ f.parts,
           p ≠ "scripts" ∧ p ≠ "venv" ∧ p ≠ ".specstory")) ∧
    should_process_the_file
      (FileEntry.mk true ".pyc" ["interview", "models.pyc"] "x"
        "interview/models.pyc") = true ∧
    should_process_the_file
      (FileEntry.mk true ".txt" ["notes.txt"] "x" "notes.txt") = false ∧
    should_process_the_file
      (FileEntry.mk true ".md" ["readme.md"] "x" "readme.md") = false := by
  refine ⟨?_, by decide, by decide, by decide⟩
  intro f
  unfold should_process_the_file
  simp only [Bool.and_eq_true, Bool.not_eq_true']
  rw [str_in_iff, excluded_dirs_none_iff, and_assoc]

/-- C7: for any inputs, the markdown artifact written by
`save_query_and_response` has a timestamp-derived filename and contains the
user query, the task plan and the code context verbatim as substrings. -/
theorem saved_markdown_contains_inputs
    (timestamp header_ts query task_plan code_context : String) :
    (save_query_and_response timestamp header_ts query task_plan
        code_context).1 = "queries/query_" ++ timestamp ++ ".md" ∧
    ContainsVerbatim (save_query_and_response timestamp header_ts query
        task_plan code_context).2 query ∧
    ContainsVerbatim (save_query_and_response timestamp header_ts query
        task_plan code_context).2 task_plan ∧
    ContainsVerbatim (save_query_and_response timestamp header_ts query
        task_plan code_context).2 code_context := by
  refine ⟨rfl, ?_, ?_, ?_⟩
  · exact ⟨("# Task Query - " ++ header_ts ++ "\n\n## User Query\n").data,
      ("\n\n## Task Plan\n" ++ task_plan ++
        "\n\n## Relevant Code Context\n" ++ code_context ++ "\n").data,
      by simp [save_query_and_response, string_data_append,
        List.append_assoc]⟩
  · exact ⟨("# Task Query - " ++ header_ts ++ "\n\n## User Query\n" ++
        query ++ "\n\n## Task Plan\n").data,
      ("\n\n## Relevant Code Context\n" ++ code_context ++ "\n").data,
      by simp [save_query_and_response, string_data_append,
        List.append_assoc]⟩
  · exact ⟨("# Task Query - " ++ header_ts ++ "\n\n## User Query\n" ++
        query ++ "\n\n## Task Plan\n" ++ task_plan ++
        "\n\n## Relevant Code Context\n").data,
      ("\n").data,
      by simp [save_query_and_response, string_data_append,
        List.append_assoc]⟩

/-- C8: every chat request built by `get_chat_completion` has exactly the
two messages (system prompt, raw user query) and the fixed sampling
parameters `temperature 0`, `top_p 1`, `frequency_penalty 0`,
`presence_penalty 0.5`; and any request a task-plan run issues carries the
prompt template with some code context spliced into its placeholder as the
system message and the raw query as the user message. -/
theorem chat_request_fixed_shape :
    (∀ system_prompt user_query : String,
      build_chat_request system_prompt user_query =
        ChatRequest.mk
          [ChatMessage.mk "system" system_prompt,
           ChatMessage.mk "user" user_query] 0 1 0 0.5) ∧
    (∀ system_prompt user_query : String,
      (build_chat_request system_prompt user_query).messages.length = 2) ∧
    ∀ (o : QueryOracle) (store : VectorStore) (ts hts user_query : String),
      (generate_task_plan o store ts hts user_query).chat_requests = [] ∨
      ∃ code_context,
        (generate_task_plan o store ts hts user_query).chat_requests =
          [build_chat_request
            (system_prompt_before_code ++ code_context ++
              system_prompt_after_code) user_query] := by
  refine ⟨fun _ _ => rfl, fun _ _ => rfl, ?_⟩
  intro o store ts hts user_query
  cases hsearch : search_code_base o store user_query default_search_limit with
  | error e =>
    left
    simp [generate_task_plan, hsearch]
  | ok results =>
    right
    refine ⟨format_code_context results, ?_⟩
    cases hchat : get_chat_completion o
        (format_system_prompt (format_code_context results)) user_query with
    | error e =>
      simp only [format_system_prompt] at hchat
      simp [generate_task_plan, hsearch, hchat, format_system_prompt]
    | ok plan =>
      simp only [format_system_prompt] at hchat
      simp [generate_task_plan, hsearch, hchat, format_system_prompt]

/-- C4: if the query-side embedding call, the vector search, or the chat
completion call fails, the whole task-plan run aborts at the top-level
handler: no markdown file is written, no task plan is printed, and the
error is surfaced by the top-level handler. -/
theorem task_plan_aborts_on_failure (o : QueryOracle) (store : VectorStore)
    (ts hts user_query : String)
    (h : o.embed user_query = none ∨ o.search_ok = false ∨
      ∀ v, o.embed user_query = some v →
        o.chat (build_chat_request
          (format_system_prompt (format_code_context
            (search_matches store v default_search_limit)))
          user_query) = none) :
    (generate_task_plan o store ts hts user_query).saved_files = [] ∧
    (generate_task_plan o store ts hts user_query).printed_plan = none ∧
    (generate_task_plan o store ts hts user_query).error_printed ≠ none := by
  rcases h with hemb | hso | hchat
  · simp [generate_task_plan, search_code_base, get_vector_embedding, hemb]
  · cases hv : o.embed user_query with
    | none =>
      simp [generate_task_plan, search_code_base, get_vector_embedding, hv]
    | some v =>
      simp [generate_task_plan, search_code_base, get_vector_embedding, hv,
        hso]
  · cases hv : o.embed user_query with
    | none =>
      simp [generate_task_plan, search_code_base, get_vector_embedding, hv]
    | some v =>
      have hc := hchat v hv
      cases hsb : o.search_ok with
      | false =>
        simp [generate_task_plan, search_code_base, get_vector_embedding,
          hv, hsb]
      | true =>
        simp [generate_task_plan, search_code_base, get_vector_embedding,
          hv, hsb, get_chat_completion, hc]

/-- Witness for C4: a run whose query-side embedding call fails writes no
file and prints no plan. -/
theorem task_plan_aborts_on_failure_witness :
    c4_oracle.embed "add an endpoint" = none ∧
    ((generate_task_plan c4_oracle c4_store "ts" "hts"
        "add an endpoint").saved_files = [] ∧
     (generate_task_plan c4_oracle c4_store "ts" "hts"
        "add an endpoint").printed_plan = none ∧
     (generate_task_plan c4_oracle c4_store "ts" "hts"
        "add an endpoint").error_printed ≠ none) :=
  ⟨rfl, task_plan_aborts_on_failure c4_oracle c4_store "ts" "hts"
    "add an endpoint" (Or.inl rfl)⟩

/-- C6: `search_code_base` defaults its limit to 5; on success it returns
at most `lim` matches, each of which is exactly the `file_path`/`content`
pair of some stored record; and when the collection holds no more than
`lim` documents the result contains a match for every stored record. -/
theorem search_limit_behavior :
    default_search_limit = 5 ∧
    ∀ (o : QueryOracle) (store : VectorStore) (query : String) (lim : Nat)
      (ms : List StoredDoc),
      search_code_base o store query lim = Except.ok ms →
      ms.length ≤ lim ∧
      (∀ m ∈ ms, ∃ e ∈ store.docs,
        m = StoredDoc.mk e.1.file_path e.1.content) ∧
      (store.docs.length ≤ lim →
        ∀ e ∈ store.docs,
          StoredDoc.mk e.1.file_path e.1.content ∈ ms) := by
  refine ⟨rfl, ?_⟩
  intro o store query lim ms hok
  simp only [search_code_base, get_vector_embedding] at hok
  cases hv : o.embed query with
  | none => simp [hv] at hok
  | some v =>
    simp only [hv] at hok
    cases hsb : o.search_ok with
    | false => simp [hsb] at hok
    | true =>
      simp only [hsb, if_true] at hok
      rcases Except.ok.inj hok with rfl
      refine ⟨?_, ?_, ?_⟩
      · simp only [search_matches, near_vector, List.length_map,
          List.length_take]
        exact min_le_left _ _
      · intro m hm
        have hm2 : m ∈ near_vector store v lim := by
          simpa [search_matches] using hm
        have hd2 : m ∈ (List.insertionSort (near_rank v) store.docs).map
            Prod.fst :=
          List.take_subset _ _ (by simpa [near_vector] using hm2)
        rcases List.mem_map.mp hd2 with ⟨e, he, rfl⟩
        have he2 : e ∈ store.docs :=
          ((List.perm_insertionSort (near_rank v) store.docs).mem_iff).mp he
        exact ⟨e, he2, rfl⟩
      · intro hlen e he
        have hfull :
            ((List.insertionSort (near_rank v) store.docs).map
              Prod.fst).take lim =
            (List.insertionSort (near_rank v) store.docs).map Prod.fst := by
          apply List.take_of_length_le
          simpa [List.length_insertionSort] using hlen
        have hmem : e ∈ List.insertionSort (near_rank v) store.docs :=
          ((List.perm_insertionSort (near_rank v) store.docs).mem_iff).mpr he
        have hfst : e.1 ∈ (List.insertionSort (near_rank v) store.docs).map
            Prod.fst :=
          List.mem_map_of_mem Prod.fst hmem
        simp only [search_matches, near_vector, hfull]
        exact List.mem_map.mpr ⟨e.1, hfst, rfl⟩

/-- Witness for C6: a store with two documents and the default limit of
five returns both documents, in nearest-first order. -/
theorem search_limit_behavior_witness :
    search_code_base c6_oracle c6_store "query" default_search_limit =
      Except.ok [StoredDoc.mk "a.py" "A", StoredDoc.mk "b.py" "B"] ∧
    ([StoredDoc.mk "a.py" "A", StoredDoc.mk "b.py" "B"].length ≤
        default_search_limit ∧
     (∀ m ∈ [StoredDoc.mk "a.py" "A", StoredDoc.mk "b.py" "B"],
       ∃ e ∈ c6_store.docs, m = StoredDoc.mk e.1.file_path e.1.content) ∧
     (c6_store.docs.length ≤ default_search_limit →
       ∀ e ∈ c6_store.docs,
         StoredDoc.mk e.1.file_path e.1.content ∈
           [StoredDoc.mk "a.py" "A", StoredDoc.mk "b.py" "B"])) :=
  ⟨rfl, search_limit_behavior.2 c6_oracle c6_store "query"
    default_search_limit [StoredDoc.mk "a.py" "A", StoredDoc.mk "b.py" "B"]
    rfl⟩

end Scripts
